import Mathlib

/-!
# Verification of the Windows-Optimizer orchestration layer

Shallow embedding of `Windows_optimizer_opensource.py`.

The program is a console tool that runs a fixed set of maintenance actions.
Console I/O is modelled explicitly: standard input is a `List String` of
lines (an exhausted list models end-of-stream, where Python's `input()`
raises `EOFError`), and observable behaviour is a trace of `Ev` events
(console prints and action-primitive invocations).  External collaborators
(the recycle-bin API, `netsh` invocations, the file system) are oracles
passed in as records of functions, mirroring the spec's treatment of action
primitives as opaque "perform X, return success+message" operations.
-/

namespace WinOpt

/-- Observable events of the orchestration layer: a line (or prompt) written
to the console, or the invocation of an action primitive through the
progress runner (`prim name dryRun`).  The cosmetic spinner frames are not
events; they carry no information. -/
inductive Ev
  | print (s : String)
  | prim (name : String) (dryRun : Bool)
deriving DecidableEq, Repr

/-! ## Python string primitives

Executable embeddings of the `str` methods the program uses, defined
structurally over the character list so that concrete runs reduce in the
kernel.  They implement the ASCII behaviour the program relies on
(`str.strip` of the four common whitespace characters, `str.lower` on
ASCII letters, `str.split(",")`, `int()` on an optionally signed digit
string — digit-group underscores are not modelled). -/

/-- Python `s.strip()`: drop leading and trailing whitespace. -/
def pyStrip (s : String) : String :=
  ⟨((s.data.dropWhile Char.isWhitespace).reverse.dropWhile Char.isWhitespace).reverse⟩

/-- Python `s.lower()` (ASCII). -/
def pyLower (s : String) : String :=
  ⟨s.data.map Char.toLower⟩

/-- Worker for `pySplit`: split a character list on `sep`; an empty input
yields one empty field, as Python's `"".split(",") == [""]`. -/
def pySplitAux (sep : Char) : List Char → List Char → List (List Char)
  | [], acc => [acc.reverse]
  | c :: cs, acc =>
    if c = sep then acc.reverse :: pySplitAux sep cs []
    else pySplitAux sep cs (c :: acc)

/-- Python `s.split(sep)` for a one-character separator. -/
def pySplit (sep : Char) (s : String) : List String :=
  (pySplitAux sep s.data []).map (fun l => ⟨l⟩)

/-- Value of a non-empty all-digit character list, else `none`. -/
def digitsVal? (cs : List Char) : Option Nat :=
  if cs = [] then none
  else
    cs.foldl
      (fun acc c =>
        match acc with
        | none => none
        | some n => if c.isDigit then some (n * 10 + (c.toNat - 48)) else none)
      (some 0)

/-- Python `int(tok)` for the stripped tokens the program feeds it: an
optional single sign followed by decimal digits; anything else raises
`ValueError`, modelled as `none`. -/
def pyInt? (s : String) : Option Int :=
  match s.data with
  | '+' :: rest => (digitsVal? rest).map Int.ofNat
  | '-' :: rest => (digitsVal? rest).map (fun n => -(n : Int))
  | ds => (digitsVal? ds).map Int.ofNat

/-! ## Confirmation gate: `ensure_confirm` -/

/-- Embedding of `ensure_confirm(prompt, assume_yes)`.

Returns `(answer, remaining_input, console_events)`.  With `assume_yes`
it returns `true` at once, consuming no input and printing nothing.
Otherwise it shows `prompt + " [y/N]: "` and reads one line; end-of-stream
(`EOFError`, modelled by the empty input list) yields `false`; else the
answer is `true` exactly for a trimmed, lower-cased `"y"` or `"yes"`. -/
def ensure_confirm (prompt : String) (assume_yes : Bool) (inp : List String) :
    Bool × List String × List Ev :=
  if assume_yes then (true, inp, [])
  else
    match inp with
    | [] => (false, [], [Ev.print (prompt ++ " [y/N]: ")])
    | s :: rest =>
      let ans := pyLower (pyStrip s)
      (ans == "y" || ans == "yes", rest, [Ev.print (prompt ++ " [y/N]: ")])

/-! ## Progress runner: `run_with_spinner` -/

/-- The `result` dict shared between `run_with_spinner` and its worker
thread: the worker stores the primitive's return value under `"value"` or
the raised exception under `"exc"`. -/
structure SpinResult (ε α : Type) where
  value : Option α
  exc : Option ε
deriving DecidableEq, Repr

/-- The worker thread body (`target` in `run_with_spinner`): runs the
primitive, recording its value, or the exception it raised. -/
def spinnerTarget {ε α : Type} (f : Unit → Except ε α) : SpinResult ε α :=
  match f () with
  | .ok v => { value := some v, exc := none }
  | .error e => { value := none, exc := some e }

/-- Phases of one `run_with_spinner` call, in the order the source forces
them: the worker thread is started, the spinner loop stops once the
one-shot `done` event is set, the worker is joined. -/
inductive SpinEv
  | workerStart
  | indicatorStopped
  | workerJoined
deriving DecidableEq, Repr

/-- Embedding of `run_with_spinner(func, *args)`.  The primitive is a
thunk returning `Except` (an exception or a value).  The call yields the
ordered phase trace and then either re-raises the recorded exception or
returns `result.get("value")` (an `Option`, since `dict.get` yields `None`
when the key is absent). -/
def run_with_spinner {ε α : Type} (f : Unit → Except ε α) :
    List SpinEv × Except ε (Option α) :=
  let result := spinnerTarget f
  ([SpinEv.workerStart, SpinEv.indicatorStopped, SpinEv.workerJoined],
   match result.exc with
   | some e => .error e
   | none => .ok result.value)

/-! ## Adapter-selection resolution (restart-adapters sub-flow) -/

/-- Embedding of the selection-resolution loop of the restart-adapters
sub-flow in `run_actions`: `"all"` (case-insensitive) takes every listed
adapter; otherwise each comma-separated token is stripped, empty tokens
are skipped, a numeric token is a 1-based index kept only when in range,
and a non-numeric token is kept only when it names a listed adapter. -/
def resolve_targets (sel : String) (adapters : List String) : List String :=
  if pyLower sel = "all" then adapters
  else
    (pySplit ',' sel).foldl
      (fun acc tok0 =>
        let tok := pyStrip tok0
        if tok = "" then acc
        else
          match pyInt? tok with
          | some n =>
            let idx := n - 1
            if 0 ≤ idx ∧ idx < (adapters.length : Int) then
              acc ++ [adapters.getD idx.toNat ""]
            else acc
          | none => if tok ∈ adapters then acc ++ [tok] else acc)
      []

/-! ## Action primitives, with explicit system effects

Each primitive is embedded as a function from its oracle (the behaviour of
the external system it drives) to `(effects, (success, message))`, where
`effects : List SysEff` records every mutating system call it performs. -/

/-- Mutating system calls a primitive may perform. -/
inductive SysEff
  | emptyRecycleBin
  | removeFile (path : String)
  | removeDir (path : String)
  | runCmd (cmd : List String)
  | makeDir (path : String)
deriving DecidableEq, Repr

/-- Uppercase hex rendering of `hr` padded to eight digits, as Python's
`f"0x{hr:08X}"` produces (without the `0x`). -/
def hex8 (n : Nat) : String :=
  let ds := (Nat.toDigits 16 n).map Char.toUpper
  ⟨List.replicate (8 - ds.length) '0' ++ ds⟩

/-- Behaviour of the `SHEmptyRecycleBinW` shell API: either the call raises
(attribute error on a non-Windows host, say) with a message, or it returns
an HRESULT. -/
structure ShellApi where
  raises : Option String
  hr : Nat

/-- Embedding of `empty_recycle_bin(dry_run)`. -/
def empty_recycle_bin (dry_run : Bool) (api : ShellApi) :
    List SysEff × (Bool × String) :=
  if dry_run then
    ([], (true, "Dry-run: would call SHEmptyRecycleBinW for all drives."))
  else
    match api.raises with
    | some ex => ([], (false, "Exception calling SHEmptyRecycleBinW: " ++ ex))
    | none =>
      ([SysEff.emptyRecycleBin],
       if api.hr = 0 then (true, "Recycle Bin emptied.")
       else (false, "SHEmptyRecycleBinW returned HRESULT 0x" ++ hex8 api.hr))

/-- Behaviour of `subprocess.run(cmd, check=True)` on `netsh` commands:
`some stderr` when the command exits nonzero (raising
`CalledProcessError`), `none` on success. -/
structure NetshApi where
  cmdFails : List String → Option String

/-- Embedding of `restart_adapter(adapter_name, dry_run)`: disable then
re-enable the adapter; the second command runs only if the first
succeeded. -/
def restart_adapter (adapter_name : String) (dry_run : Bool) (api : NetshApi) :
    List SysEff × (Bool × String) :=
  if dry_run then
    ([], (true, "Dry-run: would restart adapter \x27" ++ adapter_name ++ "\x27."))
  else
    let c1 := ["netsh", "interface", "set", "interface", adapter_name, "admin=DISABLED"]
    let c2 := ["netsh", "interface", "set", "interface", adapter_name, "admin=ENABLED"]
    match api.cmdFails c1 with
    | some err =>
      ([SysEff.runCmd c1], (false, "Command failed for \x27" ++ adapter_name ++ "\x27: " ++ err))
    | none =>
      match api.cmdFails c2 with
      | some err =>
        ([SysEff.runCmd c1, SysEff.runCmd c2],
         (false, "Command failed for \x27" ++ adapter_name ++ "\x27: " ++ err))
      | none =>
        ([SysEff.runCmd c1, SysEff.runCmd c2],
         (true, "Adapter \x27" ++ adapter_name ++ "\x27 restarted."))

/-- The five fixed `netsh` commands of `apply_tcp_optimizations`. -/
def tcpCommands : List (List String) :=
  [["netsh", "int", "tcp", "set", "global", "autotuninglevel=normal"],
   ["netsh", "int", "tcp", "set", "global", "rss=enabled"],
   ["netsh", "int", "tcp", "set", "global", "chimney=disabled"],
   ["netsh", "int", "tcp", "set", "global", "ecncapability=disabled"],
   ["netsh", "int", "tcp", "set", "heuristics", "disabled"]]

/-- Embedding of `apply_tcp_optimizations(dry_run)`: every command is
attempted; a failing command adds a `FAILED:` line to the report and the
loop continues; the returned success flag is `True` on every path. -/
def apply_tcp_optimizations (dry_run : Bool) (api : NetshApi) :
    List SysEff × (Bool × String) :=
  if dry_run then
    ([], (true, "Dry-run: would run netsh commands:\n" ++
      String.intercalate "\n" (tcpCommands.map (String.intercalate " "))))
  else
    let r := tcpCommands.foldl
      (fun (acc : List SysEff × List String) cmd =>
        match api.cmdFails cmd with
        | none => (acc.1 ++ [SysEff.runCmd cmd], acc.2 ++ ["OK: " ++ String.intercalate " " cmd])
        | some err =>
          (acc.1 ++ [SysEff.runCmd cmd],
           acc.2 ++ ["FAILED: " ++ String.intercalate " " cmd ++ " -> " ++ err]))
      ([], [])
    (r.1, (true, String.intercalate "\n" r.2))

/-- State of the `%TEMP%` directory as `clean_temp_dir` observes it:
whether it exists, the bottom-up `os.walk` listing `(root, dirs, files)`,
and which removals raise. -/
structure TempFS where
  tempDir : String
  tempExists : Bool
  walk : List (String × List String × List String)
  removeFails : String → Bool
  rmdirFails : String → Bool

/-- One `os.walk` entry of the deletion loop in `clean_temp_dir`: files
first (`os.remove`, counting failures), then directories (`os.rmdir`,
failures silently ignored).  State is `(effects, deleted, failed)`. -/
def cleanWalkStep (dry_run : Bool) (fs : TempFS)
    (st : List SysEff × Nat × Nat) (entry : String × List String × List String) :
    List SysEff × Nat × Nat :=
  let root := entry.1
  let st1 := entry.2.2.foldl
    (fun (acc : List SysEff × Nat × Nat) name =>
      let fp := root ++ "\\" ++ name
      if dry_run then (acc.1, acc.2.1 + 1, acc.2.2)
      else if fs.removeFails fp then (acc.1, acc.2.1, acc.2.2 + 1)
      else (acc.1 ++ [SysEff.removeFile fp], acc.2.1 + 1, acc.2.2))
    st
  entry.2.1.foldl
    (fun (acc : List SysEff × Nat × Nat) d =>
      let dp := root ++ "\\" ++ d
      if dry_run then (acc.1, acc.2.1 + 1, acc.2.2)
      else if fs.rmdirFails dp then acc
      else (acc.1 ++ [SysEff.removeDir dp], acc.2.1 + 1, acc.2.2))
    st1

/-- Embedding of `clean_temp_dir(dry_run)`: fails only when `%TEMP%` does
not exist; otherwise walks it bottom-up removing files then empty
directories (or merely counting them under `dry_run`) and reports the
counts with success `True`. -/
def clean_temp_dir (dry_run : Bool) (fs : TempFS) :
    List SysEff × (Bool × String) :=
  if ¬ fs.tempExists then
    ([], (false, "Temp directory \x27" ++ fs.tempDir ++ "\x27 does not exist."))
  else
    let r := fs.walk.foldl (cleanWalkStep dry_run fs) ([], 0, 0)
    (r.1, (true, "Planned deletions: " ++ toString r.2.1 ++
      ". Failed deletions: " ++ toString r.2.2 ++ "."))

/-- Behaviour of the Wi-Fi collaborators: the profile names
`list_wifi_profiles` yields (empty also covers its failure path) and the
per-profile outcome of `get_wifi_password`. -/
structure WifiApi where
  profiles : List String
  password : String → Bool × String

/-- Embedding of `show_wifi_passwords(dry_run)`.  The `netsh wlan` queries
are read-only; they are still recorded as `runCmd` effects. -/
def show_wifi_passwords (dry_run : Bool) (api : WifiApi) :
    List SysEff × (Bool × String) :=
  if dry_run then
    ([], (true, "Dry-run: would list saved Wi-Fi profiles and their passwords."))
  else if api.profiles = [] then
    ([SysEff.runCmd ["netsh", "wlan", "show", "profiles"]],
     (false, "No Wi-Fi profiles found or failed to query profiles."))
  else
    let r := api.profiles.foldl
      (fun (acc : List SysEff × List String) p =>
        (acc.1 ++ [SysEff.runCmd ["netsh", "wlan", "show", "profile", p, "key=clear"]],
         acc.2 ++ [p ++ ": " ++ (api.password p).2]))
      ([SysEff.runCmd ["netsh", "wlan", "show", "profiles"]], [])
    (r.1, (true, String.intercalate "\n" r.2))

/-- State of the user's Desktop as `create_god_mode` observes it. -/
structure DesktopFS where
  home : String
  desktopExists : Bool
  pathExists : Bool
  mkdirFails : Option String

/-- Embedding of `create_god_mode(dry_run)`. -/
def create_god_mode (dry_run : Bool) (fs : DesktopFS) :
    List SysEff × (Bool × String) :=
  let desktop := fs.home ++ "\\Desktop"
  let path := desktop ++ "\\GodMode.\x7bED7BA470-8E54-465E-825C-99712043E01C\x7d"
  if dry_run then ([], (true, "Dry-run: would create \x27" ++ path ++ "\x27"))
  else if ¬ fs.desktopExists then ([], (false, "Desktop path not found: " ++ desktop))
  else if ¬ fs.pathExists then
    match fs.mkdirFails with
    | some ex => ([], (false, "Failed to create God Mode folder: " ++ ex))
    | none => ([SysEff.makeDir path], (true, "Created God Mode folder: " ++ path))
  else ([], (true, "God Mode folder already exists: " ++ path))

/-! ## Action orchestrator: `run_actions`

`run_actions` drives the primitives through the confirmation gate and the
progress runner.  Following the spec's component split, the primitives are
supplied as an oracle record `Env`: each field returns the `(success,
message)` pair the primitive (already applied to its own oracle) produces
for a given dry-run flag.  `run_actions` itself never reads the success
flag — the source binds `ok, msg` and uses only `msg` — and its result is
`Except Unit (trace, remaining_input)`, the `.error` case modelling the
uncaught `EOFError` of the adapter-selection `input()` call. -/

/-- Oracle record for the six action primitives and the adapter listing,
as the orchestrator consumes them. -/
structure Env where
  adapters : List String
  clean_temp_dir : Bool → Bool × String
  empty_recycle_bin : Bool → Bool × String
  apply_tcp_optimizations : Bool → Bool × String
  restart_adapter : String → Bool → Bool × String
  show_wifi_passwords : Bool → Bool × String
  create_god_mode : Bool → Bool × String

/-- The `"temp" in actions` block of `run_actions`. -/
def block_temp (actions : List String) (dry_run assume_yes : Bool) (env : Env)
    (inp : List String) : List Ev × List String :=
  if "temp" ∈ actions then
    let c := ensure_confirm "Proceed to clean %TEMP%?" assume_yes inp
    if c.1 then
      (c.2.2 ++ [Ev.prim "clean_temp_dir" dry_run,
        Ev.print ("Clean %TEMP% -> " ++ (env.clean_temp_dir dry_run).2)], c.2.1)
    else (c.2.2 ++ [Ev.print "Skipped %TEMP% cleanup."], c.2.1)
  else ([], inp)

/-- The `"recycle" in actions` block of `run_actions`. -/
def block_recycle (actions : List String) (dry_run assume_yes : Bool) (env : Env)
    (inp : List String) : List Ev × List String :=
  if "recycle" ∈ actions then
    let c := ensure_confirm "Proceed to empty the Recycle Bin?" assume_yes inp
    if c.1 then
      (c.2.2 ++ [Ev.prim "empty_recycle_bin" dry_run,
        Ev.print ("Empty Recycle Bin -> " ++ (env.empty_recycle_bin dry_run).2)], c.2.1)
    else (c.2.2 ++ [Ev.print "Skipped Recycle Bin empty."], c.2.1)
  else ([], inp)

/-- The `"tcp" in actions` block of `run_actions`. -/
def block_tcp (actions : List String) (dry_run assume_yes : Bool) (env : Env)
    (inp : List String) : List Ev × List String :=
  if "tcp" ∈ actions then
    let c := ensure_confirm "Proceed to apply TCP optimizations? (may require admin)" assume_yes inp
    if c.1 then
      (c.2.2 ++ [Ev.prim "apply_tcp_optimizations" dry_run,
        Ev.print "TCP optimizations ->",
        Ev.print (env.apply_tcp_optimizations dry_run).2], c.2.1)
    else (c.2.2 ++ [Ev.print "Skipped TCP optimizations."], c.2.1)
  else ([], inp)

/-- The per-target loop at the end of the restart-adapters sub-flow: each
selected adapter gets its own confirmation and, if accepted, its own
primitive run; a declined or failed adapter never stops the loop. -/
def adapterLoop (dry_run assume_yes : Bool) (env : Env) :
    List String → List String → List Ev × List String
  | [], inp => ([], inp)
  | name :: rest, inp =>
    let c := ensure_confirm
      ("Restart adapter \x27" ++ name ++ "\x27? This will briefly disconnect network.")
      assume_yes inp
    if c.1 then
      let r := env.restart_adapter name dry_run
      let next := adapterLoop dry_run assume_yes env rest c.2.1
      (c.2.2 ++ [Ev.prim ("restart_adapter:" ++ name) dry_run,
        Ev.print ("Restart \x27" ++ name ++ "\x27 -> " ++ r.2)] ++ next.1, next.2)
    else
      let next := adapterLoop dry_run assume_yes env rest c.2.1
      (c.2.2 ++ [Ev.print ("Skipped restarting \x27" ++ name ++ "\x27.")] ++ next.1, next.2)

/-- The numbered adapter listing printed before the selection prompt. -/
def adapterListing (adapters : List String) : List Ev :=
  Ev.print "Network adapters:" ::
    (adapters.enum.map (fun p => Ev.print (" " ++ toString (p.1 + 1) ++ ") " ++ p.2)))

/-- The `"restart" in actions` block of `run_actions`: list adapters (the
empty listing reports failure and ends the block), read a selection line
(end-of-stream here is the one uncaught `EOFError` of the orchestrator),
resolve it and run the per-adapter loop. -/
def block_restart (actions : List String) (dry_run assume_yes : Bool) (env : Env)
    (inp : List String) : Except Unit (List Ev × List String) :=
  if "restart" ∈ actions then
    if env.adapters.isEmpty then
      .ok ([Ev.print "No adapters found or failed to list adapters."], inp)
    else
      match inp with
      | [] => .error ()
      | selRaw :: inp1 =>
        let evs0 := adapterListing env.adapters ++
          [Ev.print "Enter adapter numbers to restart (comma-separated) or \x27all\x27: "]
        let sel := pyStrip selRaw
        if sel = "" then
          .ok (evs0 ++ [Ev.print "No adapters selected; skipping restart."], inp1)
        else
          let next := adapterLoop dry_run assume_yes env (resolve_targets sel env.adapters) inp1
          .ok (evs0 ++ next.1, next.2)
  else .ok ([], inp)

/-- The `"wifi" in actions` block of `run_actions`. -/
def block_wifi (actions : List String) (dry_run assume_yes : Bool) (env : Env)
    (inp : List String) : List Ev × List String :=
  if "wifi" ∈ actions then
    let c := ensure_confirm
      "Proceed to list Wi‑Fi profiles and passwords? (requires appropriate privileges)"
      assume_yes inp
    if c.1 then
      (c.2.2 ++ [Ev.prim "show_wifi_passwords" dry_run,
        Ev.print "Wi‑Fi profiles & passwords ->",
        Ev.print (env.show_wifi_passwords dry_run).2], c.2.1)
    else (c.2.2 ++ [Ev.print "Skipped Wi‑Fi password listing."], c.2.1)
  else ([], inp)

/-- The `"godmode" in actions` block of `run_actions`; note the source
calls `create_god_mode` directly, not through the spinner. -/
def block_godmode (actions : List String) (dry_run assume_yes : Bool) (env : Env)
    (inp : List String) : List Ev × List String :=
  if "godmode" ∈ actions then
    let c := ensure_confirm "Create God Mode folder on Desktop?" assume_yes inp
    if c.1 then
      (c.2.2 ++ [Ev.prim "create_god_mode" dry_run,
        Ev.print (env.create_god_mode dry_run).2], c.2.1)
    else (c.2.2 ++ [Ev.print "Skipped God Mode creation."], c.2.1)
  else ([], inp)

/-- Embedding of `run_actions(actions, dry_run, assume_yes)`: the empty
set short-circuits with the "No actions selected." notice; otherwise the
six blocks run in the source's fixed order, threading the input stream. -/
def run_actions (actions : List String) (dry_run assume_yes : Bool) (env : Env)
    (inp : List String) : Except Unit (List Ev × List String) :=
  if actions.isEmpty then .ok ([Ev.print "No actions selected."], inp)
  else
    let b1 := block_temp actions dry_run assume_yes env inp
    let b2 := block_recycle actions dry_run assume_yes env b1.2
    let b3 := block_tcp actions dry_run assume_yes env b2.2
    match block_restart actions dry_run assume_yes env b3.2 with
    | .error e => .error e
    | .ok b4 =>
      let b5 := block_wifi actions dry_run assume_yes env b4.2
      let b6 := block_godmode actions dry_run assume_yes env b5.2
      .ok (b1.1 ++ b2.1 ++ b3.1 ++ b4.1 ++ b5.1 ++ b6.1, b6.2)

/-! ## Selection front-end: menu, interactive loop and `main` -/

/-- The 54-character `=` banner line of the interactive menu. -/
def bannerLine : String :=
  ⟨List.replicate 54 '='⟩

/-- The fixed banner and menu lines `interactive_menu` prints. -/
def menuHeader : List Ev :=
  [Ev.print bannerLine,
   Ev.print "        Windows optimizer - Interactive Menu",
   Ev.print "  Made by Sambota, Cat Eating a chips (AKA MitkoBG)",
   Ev.print bannerLine,
   Ev.print "Choose actions to perform (comma-separated numbers):",
   Ev.print " 1) Clean %TEMP%",
   Ev.print " 2) Empty Recycle Bin",
   Ev.print " 3) Optimize TCP (apply recommended netsh settings)",
   Ev.print " 4) Restart network adapters (list will be shown)",
   Ev.print " 5) Show saved wifi passwords on PC",
   Ev.print " 6) Run all",
   Ev.print " 7) Create God Mode folder on Desktop"]

/-- The digit-to-action mapping of `interactive_menu` (`"6"` is handled
separately as "Run all"). -/
def menuMapping (t : String) : Option String :=
  if t = "1" then some "temp"
  else if t = "2" then some "recycle"
  else if t = "3" then some "tcp"
  else if t = "4" then some "restart"
  else if t = "5" then some "wifi"
  else if t = "7" then some "godmode"
  else none

/-- Embedding of `interactive_menu()`: print the menu, read one line
(end-of-stream raises), split on commas, strip, drop empties; `"6"`
anywhere short-circuits to the full set; unknown tokens are ignored. -/
def interactive_menu (inp : List String) :
    Except Unit (List String × List String × List Ev) :=
  match inp with
  | [] => .error ()
  | raw0 :: rest =>
    let evs := menuHeader ++ [Ev.print "Selection (e.g. 1,2): "]
    let raw := pyStrip raw0
    if raw = "" then .ok ([], rest, evs)
    else
      let tokens := ((pySplit ',' raw).map pyStrip).filter (fun t => t ≠ "")
      if "6" ∈ tokens then
        .ok (["temp", "recycle", "tcp", "restart", "wifi", "godmode"], rest, evs)
      else .ok (tokens.filterMap menuMapping, rest, evs)

/-- The parsed command-line flags (`argparse` namespace). -/
structure Args where
  clean_temp : Bool
  empty_recycle : Bool
  optimize_tcp : Bool
  restart_adapters : Bool
  show_wifi : Bool
  all : Bool
  dry_run : Bool
  yes : Bool

/-- `main`'s `cli_flags` test: any action-selecting flag is present. -/
def cliFlags (args : Args) : Bool :=
  args.clean_temp || args.empty_recycle || args.optimize_tcp ||
    args.restart_adapters || args.show_wifi || args.all

/-- The action list `main` builds from the flags: `--all` yields the full
canonical six-action list, else one entry per present flag in declaration
order. -/
def actionsFromArgs (args : Args) : List String :=
  if args.all then ["temp", "recycle", "tcp", "restart", "wifi", "godmode"]
  else
    (if args.clean_temp then ["temp"] else []) ++
    (if args.empty_recycle then ["recycle"] else []) ++
    (if args.optimize_tcp then ["tcp"] else []) ++
    (if args.restart_adapters then ["restart"] else []) ++
    (if args.show_wifi then ["wifi"] else [])

/-- The interactive `while True` loop of `main`, recursing on a fuel bound
(`none` = fuel exhausted; the loop itself has no bound, consuming at least
one input line per iteration).  Matches the source: empty selection asks
to retry or exit; otherwise `run_actions` runs and the user chooses menu
or exit; every normal exit returns code 0; `input()` at end-of-stream
raises. -/
def mainLoop (dry_run assume_yes : Bool) (env : Env) :
    Nat → List String → Option (Except Unit (Int × List Ev))
  | 0, _ => none
  | fuel + 1, inp =>
    match interactive_menu inp with
    | .error e => some (.error e)
    | .ok (acts, inp1, evs1) =>
      if acts = [] then
        match inp1 with
        | [] => some (.error ())
        | r :: inp2 =>
          let evs2 := evs1 ++
            [Ev.print "No actions selected. Press Enter to exit, or type \x27r\x27 to return to the menu: "]
          if pyLower (pyStrip r) = "r" then
            (mainLoop dry_run assume_yes env fuel inp2).map
              (Except.map (fun p => (p.1, evs2 ++ p.2)))
          else some (.ok (0, evs2))
      else
        match run_actions acts dry_run assume_yes env inp1 with
        | .error e => some (.error e)
        | .ok (evr, inp2) =>
          match inp2 with
          | [] => some (.error ())
          | r :: inp3 =>
            let evs2 := evs1 ++ evr ++
              [Ev.print "Press Enter to return to the menu, or type \x27exit\x27 to quit: "]
            if pyLower (pyStrip r) = "exit" then some (.ok (0, evs2))
            else
              (mainLoop dry_run assume_yes env fuel inp3).map
                (Except.map (fun p => (p.1, evs2 ++ p.2)))

/-- Embedding of `main()`: with any action flag present, one
non-interactive `run_actions` pass and return code 0 (a fault from the
pass propagates); with no flags, the interactive loop. -/
def main (fuel : Nat) (args : Args) (env : Env) (inp : List String) :
    Option (Except Unit (Int × List Ev)) :=
  if cliFlags args then
    match run_actions (actionsFromArgs args) args.dry_run args.yes env inp with
    | .ok r => some (.ok (0, r.1))
    | .error e => some (.error e)
  else mainLoop args.dry_run args.yes env fuel inp

/-! ## Auxiliary definitions for the statements -/

/-- Total number of file and directory entries the `os.walk` listing of
`%TEMP%` contains — the count a dry run reports as planned deletions. -/
def walkCount (fs : TempFS) : Nat :=
  fs.walk.foldl (fun n e => n + e.2.2.length + e.2.1.length) 0

/-- Two primitive oracles that agree on every message (and on the adapter
listing) while their success flags may differ arbitrarily. -/
def msgAgree (env env' : Env) : Prop :=
  env.adapters = env'.adapters ∧
  (∀ d, (env.clean_temp_dir d).2 = (env'.clean_temp_dir d).2) ∧
  (∀ d, (env.empty_recycle_bin d).2 = (env'.empty_recycle_bin d).2) ∧
  (∀ d, (env.apply_tcp_optimizations d).2 = (env'.apply_tcp_optimizations d).2) ∧
  (∀ n d, (env.restart_adapter n d).2 = (env'.restart_adapter n d).2) ∧
  (∀ d, (env.show_wifi_passwords d).2 = (env'.show_wifi_passwords d).2) ∧
  (∀ d, (env.create_god_mode d).2 = (env'.create_god_mode d).2)

/-- A `%TEMP%` state with one file whose deletion succeeds: a dry run and
a real run produce the very same report. -/
def fsOneFile : TempFS :=
  { tempDir := "C:\\Temp"
    tempExists := true
    walk := [("C:\\Temp", [], ["a.txt"])]
    removeFails := fun _ => false
    rmdirFails := fun _ => false }

/-- An oracle whose primitives all succeed, with an empty adapter listing. -/
def envOk : Env :=
  { adapters := []
    clean_temp_dir := fun _ => (true, "tmsg")
    empty_recycle_bin := fun _ => (true, "rmsg")
    apply_tcp_optimizations := fun _ => (true, "cmsg")
    restart_adapter := fun _ _ => (true, "amsg")
    show_wifi_passwords := fun _ => (true, "wmsg")
    create_god_mode := fun _ => (true, "gmsg") }

/-- The same messages and adapters as `envOk`, but every primitive now
reports failure. -/
def envFail : Env :=
  { adapters := []
    clean_temp_dir := fun _ => (false, "tmsg")
    empty_recycle_bin := fun _ => (false, "rmsg")
    apply_tcp_optimizations := fun _ => (false, "cmsg")
    restart_adapter := fun _ _ => (false, "amsg")
    show_wifi_passwords := fun _ => (false, "wmsg")
    create_god_mode := fun _ => (false, "gmsg") }

/-- Parsed flags for `--all --dry-run --yes`. -/
def argsAll : Args :=
  { clean_temp := false, empty_recycle := false, optimize_tcp := false
    restart_adapters := false, show_wifi := false, all := true
    dry_run := true, yes := true }

/-- Parsed flags for `--dry-run` alone: a flag `parse_cli` recognizes,
but not one of the six action flags `main`'s `cli_flags` test looks at. -/
def argsDryOnly : Args :=
  { clean_temp := false, empty_recycle := false, optimize_tcp := false
    restart_adapters := false, show_wifi := false, all := false
    dry_run := true, yes := false }

/-- The action-primitive invocations of a trace, in order: the name of
every `prim` event, dropping the console prints. -/
def primActions (tr : List Ev) : List String :=
  tr.filterMap (fun e =>
    match e with
    | Ev.prim n _ => some n
    | Ev.print _ => none)

/-! ## Theorems -/

/-- C2: `ensure_confirm(prompt, assume_yes)` returns true immediately with
no prompt and no input consumed when `assume_yes` holds; at end-of-stream
it returns false (instead of letting `EOFError` escape) after showing the
prompt; otherwise it consumes exactly one line and answers true exactly
when the trimmed, lower-cased response is `"y"` or `"yes"` — anything
else, the empty response included, gives false. -/
theorem ensure_confirm_spec :
    (∀ (prompt : String) (inp : List String),
      ensure_confirm prompt true inp = (true, inp, [])) ∧
    (∀ prompt : String,
      ensure_confirm prompt false [] =
        (false, [], [Ev.print (prompt ++ " [y/N]: ")])) ∧
    (∀ (prompt s : String) (rest : List String),
      (ensure_confirm prompt false (s :: rest)).2.1 = rest ∧
      (ensure_confirm prompt false (s :: rest)).2.2 =
        [Ev.print (prompt ++ " [y/N]: ")] ∧
      ((ensure_confirm prompt false (s :: rest)).1 = true ↔
        pyLower (pyStrip s) = "y" ∨ pyLower (pyStrip s) = "yes")) := by
  refine ⟨fun prompt inp => rfl, fun prompt => rfl,
    fun prompt s rest => ⟨rfl, rfl, ?_⟩⟩
  simp [ensure_confirm]

/-- C6: the progress runner hands back exactly the wrapped primitive's
outcome — the value (under the `Option` of Python's `dict.get`) when it
returned, the very same fault re-raised when it raised — and its phase
trace records that the indicator stops and the worker is joined before
that outcome is delivered.  It never swallows a fault. -/
theorem run_with_spinner_spec {ε α : Type} (f : Unit → Except ε α) :
    run_with_spinner f =
      ([SpinEv.workerStart, SpinEv.indicatorStopped, SpinEv.workerJoined],
       Except.map some (f ())) := by
  unfold run_with_spinner spinnerTarget
  cases f () <;> rfl

/-- C8: the orchestrator on the empty action set emits exactly the one
"No actions selected." notice, leaves the input stream untouched, and
invokes no confirmation gate, progress runner or action primitive (the
trace contains no primitive event at all). -/
theorem run_actions_empty_set (dry_run assume_yes : Bool) (env : Env)
    (inp : List String) :
    run_actions [] dry_run assume_yes env inp =
      .ok ([Ev.print "No actions selected."], inp) ∧
    ∀ (n : String) (b : Bool), Ev.prim n b ∉ [Ev.print "No actions selected."] := by
  exact ⟨rfl, by simp⟩

/-- C9: `apply_tcp_optimizations` reports success on every path on which
it returns: dry runs trivially, and real runs even when any or all of the
five `netsh` commands fail — failures surface only as `FAILED:` lines in
the message, never through the success flag. -/
theorem apply_tcp_optimizations_always_success (dry_run : Bool) (api : NetshApi) :
    (apply_tcp_optimizations dry_run api).2.1 = true := by
  cases dry_run <;> rfl

/-- C10: `clean_temp_dir` fails exactly when the temp directory does not
exist: its success flag equals the directory-existence bit, for dry and
real runs alike, whatever individual removals fail (those only raise the
"Failed deletions" count in the message). -/
theorem clean_temp_dir_success_iff (dry_run : Bool) (fs : TempFS) :
    (clean_temp_dir dry_run fs).2.1 = fs.tempExists := by
  cases h : fs.tempExists <;> simp [clean_temp_dir, h]

/-- Helper: resolution of a selection that is a single comma-free token,
unchanged by stripping. -/
theorem resolve_targets_single (sel : String) (adapters : List String)
    (hall : pyLower sel ≠ "all") (hsplit : pySplit ',' sel = [sel])
    (hstrip : pyStrip sel = sel) (hne : sel ≠ "") :
    resolve_targets sel adapters =
      (match pyInt? sel with
       | some n =>
         if 0 ≤ n - 1 ∧ n - 1 < (adapters.length : Int) then
           [adapters.getD (n - 1).toNat ""]
         else []
       | none => if sel ∈ adapters then [sel] else []) := by
  unfold resolve_targets
  rw [if_neg hall, hsplit]
  simp only [List.foldl_cons, List.foldl_nil, hstrip, if_neg hne]
  cases pyInt? sel with
  | none => by_cases h : sel ∈ adapters <;> simp [h]
  | some n =>
    by_cases h : 0 ≤ n - 1 ∧ n - 1 < (adapters.length : Int) <;> simp [h]

/-- C5: in the restart-adapters sub-flow, the selection `"all"` resolves
to the full listed adapter sequence in its original order; the selection
`"2"` resolves to exactly the second-listed adapter; and a single-token
1-based index that is out of range resolves to the empty target set
without faulting. -/
theorem resolve_targets_spec :
    (∀ adapters : List String, resolve_targets "all" adapters = adapters) ∧
    (∀ (a b : String) (l : List String), resolve_targets "2" (a :: b :: l) = [b]) ∧
    (∀ (sel : String) (n : Int) (adapters : List String),
      pyLower sel ≠ "all" → pySplit ',' sel = [sel] → pyStrip sel = sel →
      sel ≠ "" → pyInt? sel = some n →
      ¬(0 ≤ n - 1 ∧ n - 1 < (adapters.length : Int)) →
      resolve_targets sel adapters = []) := by
  refine ⟨?_, ?_, ?_⟩
  · intro adapters
    unfold resolve_targets
    rw [if_pos (by decide)]
  · intro a b l
    rw [resolve_targets_single "2" _ (by decide) (by decide) (by decide) (by decide)]
    have h2 : pyInt? "2" = some 2 := by decide
    rw [h2]
    have hc : (0 : Int) ≤ 2 - 1 ∧ (2 : Int) - 1 < ((a :: b :: l).length : Int) := by
      refine ⟨by norm_num, ?_⟩
      simp only [List.length_cons]
      push_cast
      omega
    simp only [if_pos hc]
    norm_num [List.getD]
  · intro sel n adapters hall hsplit hstrip hne hint hrange
    rw [resolve_targets_single sel adapters hall hsplit hstrip hne, hint]
    simp only [if_neg hrange]

/-- Witness for C5 at concrete inputs: two listed adapters, the
selections `"all"`, `"2"` and the out-of-range `"7"`. -/
theorem resolve_targets_spec_witness :
    resolve_targets "all" ["Ethernet", "Wi-Fi"] = ["Ethernet", "Wi-Fi"] ∧
    resolve_targets "2" ["Ethernet", "Wi-Fi"] = ["Wi-Fi"] ∧
    resolve_targets "7" ["Ethernet"] = [] :=
  ⟨resolve_targets_spec.1 ["Ethernet", "Wi-Fi"],
   resolve_targets_spec.2.1 "Ethernet" "Wi-Fi" [],
   resolve_targets_spec.2.2 "7" 7 ["Ethernet"] (by decide) (by decide) (by decide)
     (by decide) (by decide) (by decide)⟩

/-! ### Block-level helper lemmas for the orchestrator -/

/-- With assume-yes set and clean-temp selected, the temp block runs the
primitive and prints its message, touching no input. -/
theorem block_temp_mem_yes {actions : List String} (d : Bool) (env : Env)
    (inp : List String) (h : "temp" ∈ actions) :
    block_temp actions d true env inp =
      ([Ev.prim "clean_temp_dir" d,
        Ev.print ("Clean %TEMP% -> " ++ (env.clean_temp_dir d).2)], inp) := by
  unfold block_temp
  rw [if_pos h]
  rfl

/-- With assume-yes set and empty-recycle selected, the recycle block runs
the primitive and prints its message, touching no input. -/
theorem block_recycle_mem_yes {actions : List String} (d : Bool) (env : Env)
    (inp : List String) (h : "recycle" ∈ actions) :
    block_recycle actions d true env inp =
      ([Ev.prim "empty_recycle_bin" d,
        Ev.print ("Empty Recycle Bin -> " ++ (env.empty_recycle_bin d).2)], inp) := by
  unfold block_recycle
  rw [if_pos h]
  rfl

/-- With assume-yes set and show-wifi selected, the wifi block runs the
primitive and prints its message, touching no input. -/
theorem block_wifi_mem_yes {actions : List String} (d : Bool) (env : Env)
    (inp : List String) (h : "wifi" ∈ actions) :
    block_wifi actions d true env inp =
      ([Ev.prim "show_wifi_passwords" d,
        Ev.print "Wi‑Fi profiles & passwords ->",
        Ev.print (env.show_wifi_passwords d).2], inp) := by
  unfold block_wifi
  rw [if_pos h]
  rfl

/-- With restart-adapters selected but an empty adapter listing, the
restart block only reports the failure, reading no input. -/
theorem block_restart_no_adapters {actions : List String} (d a : Bool) (env : Env)
    (inp : List String) (h : "restart" ∈ actions) (hA : env.adapters = []) :
    block_restart actions d a env inp =
      .ok ([Ev.print "No adapters found or failed to list adapters."], inp) := by
  unfold block_restart
  rw [if_pos h, hA]
  rfl

/-- Primitive invocations distribute over trace concatenation. -/
theorem primActions_append (l1 l2 : List Ev) :
    primActions (l1 ++ l2) = primActions l1 ++ primActions l2 := by
  unfold primActions
  exact List.filterMap_append l1 l2 _

/-- A trace of console prints contains no primitive invocation. -/
theorem primActions_of_prints (tr : List Ev) (h : ∀ e ∈ tr, ∃ s, e = Ev.print s) :
    primActions tr = [] := by
  induction tr with
  | nil => rfl
  | cons e es ih =>
    obtain ⟨s, rfl⟩ := h e (by simp)
    simpa [primActions, List.filterMap_cons] using ih (fun x hx => h x (by simp [hx]))

/-- The confirmation gate prints at most a prompt: no primitive runs. -/
theorem primActions_confirm (p : String) (a : Bool) (inp : List String) :
    primActions (ensure_confirm p a inp).2.2 = [] := by
  cases a
  · cases inp <;> rfl
  · rfl

/-- The adapter listing is prints only. -/
theorem primActions_adapterListing (l : List String) :
    primActions (adapterListing l) = [] := by
  apply primActions_of_prints
  intro e he
  unfold adapterListing at he
  rcases List.mem_cons.mp he with rfl | he
  · exact ⟨"Network adapters:", rfl⟩
  · obtain ⟨p, -, rfl⟩ := List.mem_map.mp he
    exact ⟨_, rfl⟩

/-- Every primitive the temp block runs is clean-temp. -/
theorem block_temp_prims (acts : List String) (d a : Bool) (env : Env)
    (inp : List String) :
    ∀ x ∈ primActions (block_temp acts d a env inp).1, x = "clean_temp_dir" := by
  intro x hx
  unfold block_temp at hx
  split at hx
  · dsimp only at hx
    split at hx <;>
      (dsimp only at hx;
       rw [primActions_append, primActions_confirm, List.nil_append] at hx;
       simpa [primActions] using hx)
  · simp [primActions] at hx

/-- Every primitive the recycle block runs is empty-recycle. -/
theorem block_recycle_prims (acts : List String) (d a : Bool) (env : Env)
    (inp : List String) :
    ∀ x ∈ primActions (block_recycle acts d a env inp).1, x = "empty_recycle_bin" := by
  intro x hx
  unfold block_recycle at hx
  split at hx
  · dsimp only at hx
    split at hx <;>
      (dsimp only at hx;
       rw [primActions_append, primActions_confirm, List.nil_append] at hx;
       simpa [primActions] using hx)
  · simp [primActions] at hx

/-- Every primitive the tcp block runs is optimize-tcp. -/
theorem block_tcp_prims (acts : List String) (d a : Bool) (env : Env)
    (inp : List String) :
    ∀ x ∈ primActions (block_tcp acts d a env inp).1, x = "apply_tcp_optimizations" := by
  intro x hx
  unfold block_tcp at hx
  split at hx
  · dsimp only at hx
    split at hx <;>
      (dsimp only at hx;
       rw [primActions_append, primActions_confirm, List.nil_append] at hx;
       simpa [primActions] using hx)
  · simp [primActions] at hx

/-- Every primitive the per-adapter loop runs is a restart of some
adapter. -/
theorem adapterLoop_prims (d a : Bool) (env : Env) :
    ∀ (targets inp : List String) (x : String),
      x ∈ primActions (adapterLoop d a env targets inp).1 →
      ∃ nm, x = "restart_adapter:" ++ nm := by
  intro targets
  induction targets with
  | nil => intro inp x hx; simp [adapterLoop, primActions] at hx
  | cons name rest ih =>
    intro inp x hx
    unfold adapterLoop at hx
    dsimp only at hx
    split at hx
    · dsimp only at hx
      simp only [primActions_append, primActions_confirm, List.nil_append,
        List.mem_append] at hx
      rcases hx with hx | hx
      · simp [primActions] at hx
        exact ⟨name, hx⟩
      · exact ih _ x hx
    · dsimp only at hx
      simp only [primActions_append, primActions_confirm, List.nil_append,
        List.mem_append] at hx
      rcases hx with hx | hx
      · simp [primActions] at hx
      · exact ih _ x hx

/-- Every primitive a successful restart block runs is a restart of some
adapter. -/
theorem block_restart_prims (acts : List String) (d a : Bool) (env : Env)
    (inp : List String) (b4 : List Ev × List String)
    (hb : block_restart acts d a env inp = .ok b4) :
    ∀ x ∈ primActions b4.1, ∃ nm, x = "restart_adapter:" ++ nm := by
  intro x hx
  unfold block_restart at hb
  split at hb
  · split at hb
    · cases hb
      simp [primActions] at hx
    · split at hb
      · cases hb
      · dsimp only at hb
        split at hb
        · cases hb
          dsimp only at hx
          simp only [primActions_append, primActions_adapterListing,
            List.nil_append, List.mem_append] at hx
          rcases hx with hx | hx <;> simp [primActions] at hx
        · cases hb
          dsimp only at hx
          simp only [primActions_append, primActions_adapterListing,
            List.nil_append, List.mem_append] at hx
          rcases hx with hx | hx
          · simp [primActions] at hx
          · exact adapterLoop_prims d a env _ _ x hx
  · cases hb
    simp [primActions] at hx

/-- Every primitive the wifi block runs is show-wifi. -/
theorem block_wifi_prims (acts : List String) (d a : Bool) (env : Env)
    (inp : List String) :
    ∀ x ∈ primActions (block_wifi acts d a env inp).1, x = "show_wifi_passwords" := by
  intro x hx
  unfold block_wifi at hx
  split at hx
  · dsimp only at hx
    split at hx <;>
      (dsimp only at hx;
       rw [primActions_append, primActions_confirm, List.nil_append] at hx;
       simpa [primActions] using hx)
  · simp [primActions] at hx

/-- Every primitive the godmode block runs is create-godmode. -/
theorem block_godmode_prims (acts : List String) (d a : Bool) (env : Env)
    (inp : List String) :
    ∀ x ∈ primActions (block_godmode acts d a env inp).1, x = "create_god_mode" := by
  intro x hx
  unfold block_godmode at hx
  split at hx
  · dsimp only at hx
    split at hx <;>
      (dsimp only at hx;
       rw [primActions_append, primActions_confirm, List.nil_append] at hx;
       simpa [primActions] using hx)
  · simp [primActions] at hx

/-- C1: the orchestrator's behaviour depends on the selection only through
set membership — any two selections containing the same actions produce
identical runs (first conjunct) — and execution follows the fixed
canonical order clean-temp, empty-recycle, optimize-tcp,
restart-adapters, show-wifi, create-godmode: in every completed run the
sequence of primitive invocations splits into six consecutive segments,
one per canonical position, each containing only that action's primitive
(third conjunct), so every confirmed action runs before every action
later in the canonical order, whatever order the user selected them in.
The second conjunct instantiates the claim's example: with clean-temp and
empty-recycle both selected and confirmations assumed, the trace starts
with the clean-temp events and then the empty-recycle events. -/
theorem run_actions_canonical_order :
    (∀ (acts acts' : List String) (d a : Bool) (env : Env) (inp : List String),
      (∀ x, x ∈ acts ↔ x ∈ acts') →
      run_actions acts d a env inp = run_actions acts' d a env inp) ∧
    (∀ (acts : List String) (d : Bool) (env : Env) (inp : List String)
      (tr : List Ev) (rest : List String),
      "temp" ∈ acts → "recycle" ∈ acts →
      run_actions acts d true env inp = .ok (tr, rest) →
      ∃ tl, tr = Ev.prim "clean_temp_dir" d ::
        Ev.print ("Clean %TEMP% -> " ++ (env.clean_temp_dir d).2) ::
        Ev.prim "empty_recycle_bin" d ::
        Ev.print ("Empty Recycle Bin -> " ++ (env.empty_recycle_bin d).2) :: tl) ∧
    (∀ (acts : List String) (d a : Bool) (env : Env) (inp : List String)
      (tr : List Ev) (rest : List String),
      run_actions acts d a env inp = .ok (tr, rest) →
      ∃ l1 l2 l3 l4 l5 l6,
        primActions tr = l1 ++ l2 ++ l3 ++ l4 ++ l5 ++ l6 ∧
        (∀ x ∈ l1, x = "clean_temp_dir") ∧
        (∀ x ∈ l2, x = "empty_recycle_bin") ∧
        (∀ x ∈ l3, x = "apply_tcp_optimizations") ∧
        (∀ x ∈ l4, ∃ nm, x = "restart_adapter:" ++ nm) ∧
        (∀ x ∈ l5, x = "show_wifi_passwords") ∧
        (∀ x ∈ l6, x = "create_god_mode")) := by
  refine ⟨?_, ?_, ?_⟩
  · intro acts acts' d a env inp h
    have hnil : acts.isEmpty = acts'.isEmpty := by
      cases acts with
      | nil =>
        have : acts' = [] := List.eq_nil_iff_forall_not_mem.mpr
          (fun x hx => by have := (h x).mpr hx; simp at this)
        rw [this]
      | cons y ys =>
        have hy : y ∈ acts' := (h y).mp (by simp)
        cases acts' with
        | nil => simp at hy
        | cons z zs => rfl
    simp only [run_actions, block_temp, block_recycle, block_tcp, block_restart,
      block_wifi, block_godmode, hnil, h]
  · intro acts d env inp tr rest ht hr hrun
    have hne : acts.isEmpty = false := by
      cases acts with
      | nil => simp at ht
      | cons y ys => rfl
    rw [run_actions, hne] at hrun
    simp only [Bool.false_eq_true, if_false] at hrun
    rw [block_temp_mem_yes d env inp ht] at hrun
    rw [block_recycle_mem_yes d env inp hr] at hrun
    cases hb : block_restart acts d true env
        (block_tcp acts d true env inp).2 with
    | error e =>
      rw [hb] at hrun
      cases hrun
    | ok b4 =>
      rw [hb] at hrun
      simp only [Except.ok.injEq, Prod.mk.injEq] at hrun
      refine ⟨(block_tcp acts d true env inp).1 ++ b4.1 ++
        (block_wifi acts d true env b4.2).1 ++
        (block_godmode acts d true env
          (block_wifi acts d true env b4.2).2).1, ?_⟩
      rw [← hrun.1]
      simp [List.append_assoc]
  · intro acts d a env inp tr rest hrun
    unfold run_actions at hrun
    split at hrun
    · cases hrun
      refine ⟨[], [], [], [], [], [], ?_, ?_, ?_, ?_, ?_, ?_, ?_⟩ <;>
        simp [primActions]
    · dsimp only at hrun
      cases hb : block_restart acts d a env
          (block_tcp acts d a env
            (block_recycle acts d a env
              (block_temp acts d a env inp).2).2).2 with
      | error e =>
        rw [hb] at hrun
        cases hrun
      | ok b4 =>
        rw [hb] at hrun
        dsimp only at hrun
        simp only [Except.ok.injEq, Prod.mk.injEq] at hrun
        obtain ⟨htr, -⟩ := hrun
        refine ⟨primActions (block_temp acts d a env inp).1,
          primActions (block_recycle acts d a env
            (block_temp acts d a env inp).2).1,
          primActions (block_tcp acts d a env
            (block_recycle acts d a env (block_temp acts d a env inp).2).2).1,
          primActions b4.1,
          primActions (block_wifi acts d a env b4.2).1,
          primActions (block_godmode acts d a env
            (block_wifi acts d a env b4.2).2).1,
          ?_, block_temp_prims _ _ _ _ _, block_recycle_prims _ _ _ _ _,
          block_tcp_prims _ _ _ _ _, block_restart_prims _ _ _ _ _ _ hb,
          block_wifi_prims _ _ _ _ _, block_godmode_prims _ _ _ _ _⟩
        rw [← htr]
        simp [primActions_append, List.append_assoc]

/-- Witness for C1: the selection "2,1" (empty-recycle listed before
clean-temp) runs identically to "1,2"; the concrete run with both
confirmed starts clean-temp before empty-recycle; and a full six-action
concrete run has a canonically ordered primitive sequence. -/
theorem run_actions_canonical_order_witness :
    (run_actions ["recycle", "temp"] false true envOk [] =
      run_actions ["temp", "recycle"] false true envOk []) ∧
    (∃ tl, [Ev.prim "clean_temp_dir" false, Ev.print "Clean %TEMP% -> tmsg",
            Ev.prim "empty_recycle_bin" false, Ev.print "Empty Recycle Bin -> rmsg"] =
      Ev.prim "clean_temp_dir" false ::
        Ev.print ("Clean %TEMP% -> " ++ (envOk.clean_temp_dir false).2) ::
        Ev.prim "empty_recycle_bin" false ::
        Ev.print ("Empty Recycle Bin -> " ++ (envOk.empty_recycle_bin false).2) :: tl) ∧
    (∃ l1 l2 l3 l4 l5 l6,
      primActions
        [Ev.prim "clean_temp_dir" true, Ev.print "Clean %TEMP% -> tmsg",
         Ev.prim "empty_recycle_bin" true, Ev.print "Empty Recycle Bin -> rmsg",
         Ev.prim "apply_tcp_optimizations" true, Ev.print "TCP optimizations ->",
         Ev.print "cmsg",
         Ev.print "No adapters found or failed to list adapters.",
         Ev.prim "show_wifi_passwords" true,
         Ev.print "Wi‑Fi profiles & passwords ->", Ev.print "wmsg",
         Ev.prim "create_god_mode" true, Ev.print "gmsg"] =
        l1 ++ l2 ++ l3 ++ l4 ++ l5 ++ l6 ∧
      (∀ x ∈ l1, x = "clean_temp_dir") ∧
      (∀ x ∈ l2, x = "empty_recycle_bin") ∧
      (∀ x ∈ l3, x = "apply_tcp_optimizations") ∧
      (∀ x ∈ l4, ∃ nm, x = "restart_adapter:" ++ nm) ∧
      (∀ x ∈ l5, x = "show_wifi_passwords") ∧
      (∀ x ∈ l6, x = "create_god_mode")) :=
  ⟨run_actions_canonical_order.1 ["recycle", "temp"] ["temp", "recycle"]
      false true envOk [] (fun x => by simp [or_comm]),
   run_actions_canonical_order.2.1 ["recycle", "temp"] false envOk []
      [Ev.prim "clean_temp_dir" false, Ev.print "Clean %TEMP% -> tmsg",
       Ev.prim "empty_recycle_bin" false, Ev.print "Empty Recycle Bin -> rmsg"] []
      (by decide) (by decide) rfl,
   run_actions_canonical_order.2.2
      ["temp", "recycle", "tcp", "restart", "wifi", "godmode"] true true envOk []
      [Ev.prim "clean_temp_dir" true, Ev.print "Clean %TEMP% -> tmsg",
       Ev.prim "empty_recycle_bin" true, Ev.print "Empty Recycle Bin -> rmsg",
       Ev.prim "apply_tcp_optimizations" true, Ev.print "TCP optimizations ->",
       Ev.print "cmsg",
       Ev.print "No adapters found or failed to list adapters.",
       Ev.prim "show_wifi_passwords" true,
       Ev.print "Wi‑Fi profiles & passwords ->", Ev.print "wmsg",
       Ev.prim "create_god_mode" true, Ev.print "gmsg"] [] rfl⟩

/-! ### Success flags never steer the orchestrator -/

/-- The per-adapter loop is driven by messages only, never by the success
flag of `restart_adapter`. -/
theorem adapterLoop_msg_congr (d a : Bool) (env env' : Env)
    (hA : ∀ n d', (env.restart_adapter n d').2 = (env'.restart_adapter n d').2) :
    ∀ targets inp : List String,
      adapterLoop d a env targets inp = adapterLoop d a env' targets inp := by
  intro targets
  induction targets with
  | nil => intro inp; rfl
  | cons name rest ih => intro inp; simp only [adapterLoop, hA, ih]

/-- The temp block is driven by the primitive's message only. -/
theorem block_temp_msg_congr (acts : List String) (d a : Bool) (env env' : Env)
    (h : ∀ d', (env.clean_temp_dir d').2 = (env'.clean_temp_dir d').2) :
    ∀ inp, block_temp acts d a env inp = block_temp acts d a env' inp := by
  intro inp; simp only [block_temp, h]

/-- The recycle block is driven by the primitive's message only. -/
theorem block_recycle_msg_congr (acts : List String) (d a : Bool) (env env' : Env)
    (h : ∀ d', (env.empty_recycle_bin d').2 = (env'.empty_recycle_bin d').2) :
    ∀ inp, block_recycle acts d a env inp = block_recycle acts d a env' inp := by
  intro inp; simp only [block_recycle, h]

/-- The tcp block is driven by the primitive's message only. -/
theorem block_tcp_msg_congr (acts : List String) (d a : Bool) (env env' : Env)
    (h : ∀ d', (env.apply_tcp_optimizations d').2 = (env'.apply_tcp_optimizations d').2) :
    ∀ inp, block_tcp acts d a env inp = block_tcp acts d a env' inp := by
  intro inp; simp only [block_tcp, h]

/-- The restart block is driven by the adapter listing and messages only. -/
theorem block_restart_msg_congr (acts : List String) (d a : Bool) (env env' : Env)
    (hAd : env.adapters = env'.adapters)
    (hA : ∀ n d', (env.restart_adapter n d').2 = (env'.restart_adapter n d').2) :
    ∀ inp, block_restart acts d a env inp = block_restart acts d a env' inp := by
  intro inp
  simp only [block_restart, hAd, adapterLoop_msg_congr d a env env' hA]

/-- The wifi block is driven by the primitive's message only. -/
theorem block_wifi_msg_congr (acts : List String) (d a : Bool) (env env' : Env)
    (h : ∀ d', (env.show_wifi_passwords d').2 = (env'.show_wifi_passwords d').2) :
    ∀ inp, block_wifi acts d a env inp = block_wifi acts d a env' inp := by
  intro inp; simp only [block_wifi, h]

/-- The godmode block is driven by the primitive's message only. -/
theorem block_godmode_msg_congr (acts : List String) (d a : Bool) (env env' : Env)
    (h : ∀ d', (env.create_god_mode d').2 = (env'.create_god_mode d').2) :
    ∀ inp, block_godmode acts d a env inp = block_godmode acts d a env' inp := by
  intro inp; simp only [block_godmode, h]

/-- C7: a primitive reporting `success=false` is never fatal and never
even alters the orchestration.  First: two oracle records that agree on
adapter listing and messages — while their success flags differ
arbitrarily — produce identical runs, so the flag steers nothing and
every subsequent action still runs.  Second, the claim's scenario: with
an empty adapter listing, the restart sub-flow only prints its failure
notice, and a further selected action (show-wifi) still executes. -/
theorem run_actions_failure_not_fatal :
    (∀ (acts : List String) (d a : Bool) (env env' : Env) (inp : List String),
      msgAgree env env' →
      run_actions acts d a env inp = run_actions acts d a env' inp) ∧
    (∀ (acts : List String) (d : Bool) (env : Env) (inp : List String)
      (tr : List Ev) (rest : List String),
      env.adapters = [] → "restart" ∈ acts → "wifi" ∈ acts →
      run_actions acts d true env inp = .ok (tr, rest) →
      Ev.print "No adapters found or failed to list adapters." ∈ tr ∧
      Ev.prim "show_wifi_passwords" d ∈ tr) := by
  constructor
  · intro acts d a env env' inp hm
    obtain ⟨hAd, h1, h2, h3, h4, h5, h6⟩ := hm
    simp only [run_actions,
      block_temp_msg_congr acts d a env env' h1,
      block_recycle_msg_congr acts d a env env' h2,
      block_tcp_msg_congr acts d a env env' h3,
      block_restart_msg_congr acts d a env env' hAd h4,
      block_wifi_msg_congr acts d a env env' h5,
      block_godmode_msg_congr acts d a env env' h6]
  · intro acts d env inp tr rest hAd ht hw hrun
    have hne : acts.isEmpty = false := by
      cases acts with
      | nil => simp at ht
      | cons y ys => rfl
    rw [run_actions, hne] at hrun
    simp only [Bool.false_eq_true, if_false] at hrun
    rw [block_restart_no_adapters d true env _ ht hAd] at hrun
    dsimp only at hrun
    rw [block_wifi_mem_yes d env _ hw] at hrun
    simp only [Except.ok.injEq, Prod.mk.injEq] at hrun
    obtain ⟨htr, -⟩ := hrun
    rw [← htr]
    constructor <;> simp

/-- Witness for C7: the all-success and all-failure oracles (same
messages) give the same run; and the concrete zero-adapter run still
executes show-wifi after the restart failure notice. -/
theorem run_actions_failure_not_fatal_witness :
    (run_actions ["temp", "recycle"] false false envOk ["y", "n"] =
      run_actions ["temp", "recycle"] false false envFail ["y", "n"]) ∧
    (Ev.print "No adapters found or failed to list adapters." ∈
       [Ev.print "No adapters found or failed to list adapters.",
        Ev.prim "show_wifi_passwords" false,
        Ev.print "Wi‑Fi profiles & passwords ->", Ev.print "wmsg"] ∧
     Ev.prim "show_wifi_passwords" false ∈
       [Ev.print "No adapters found or failed to list adapters.",
        Ev.prim "show_wifi_passwords" false,
        Ev.print "Wi‑Fi profiles & passwords ->", Ev.print "wmsg"]) :=
  ⟨run_actions_failure_not_fatal.1 ["temp", "recycle"] false false envOk envFail
      ["y", "n"]
      ⟨rfl, fun _ => rfl, fun _ => rfl, fun _ => rfl, fun _ _ => rfl,
       fun _ => rfl, fun _ => rfl⟩,
   run_actions_failure_not_fatal.2 ["restart", "wifi"] false envOk []
      [Ev.print "No adapters found or failed to list adapters.",
       Ev.prim "show_wifi_passwords" false,
       Ev.print "Wi‑Fi profiles & passwords ->", Ev.print "wmsg"] []
      rfl (by decide) (by decide) rfl⟩

/-- C3 as amended: flag mode is triggered by the six action-selecting
flags only, not by every flag `parse_cli` recognizes.  With any
action-selecting flag present (`cliFlags`, the source's `cli_flags`
test), `main` builds the action list from the flags (`--all` expanding to
the full canonical six-action list including godmode), performs exactly
one orchestrator pass — its output is exactly that pass's trace, with no
menu and, for every fuel bound alike, no repeat loop — and returns exit
code 0 whatever the individual action outcomes were.  With none of the
six present, `main` runs the interactive loop even when the recognized
`--dry-run` or `--yes` flags are given (they only set the run
configuration). -/
theorem main_flag_mode :
    (∀ (fuel : Nat) (args : Args) (env : Env) (inp : List String)
      (tr : List Ev) (rest : List String),
      cliFlags args = true →
      run_actions (actionsFromArgs args) args.dry_run args.yes env inp =
        .ok (tr, rest) →
      main fuel args env inp = some (.ok (0, tr)) ∧
      (args.all = true → actionsFromArgs args =
        ["temp", "recycle", "tcp", "restart", "wifi", "godmode"])) ∧
    (∀ (fuel : Nat) (args : Args) (env : Env) (inp : List String),
      cliFlags args = false →
      main fuel args env inp = mainLoop args.dry_run args.yes env fuel inp) := by
  constructor
  · intro fuel args env inp tr rest hflags hrun
    constructor
    · unfold main
      rw [if_pos hflags, hrun]
    · intro hall
      unfold actionsFromArgs
      rw [if_pos hall]
  · intro fuel args env inp h
    unfold main
    rw [if_neg (by simp [h])]

/-- C3 counterexample: `--dry-run` is a flag `parse_cli` recognizes, yet
with it alone present the program does not run a single non-interactive
pass — `main`'s `cli_flags` test ignores it, and the interactive menu is
entered (here: shown once, then exited on the empty follow-up input), so
the claim's "any recognized command-line flag" is wrong. -/
theorem main_config_flag_counterexample :
    cliFlags argsDryOnly = false ∧
    main 1 argsDryOnly envOk ["", ""] =
      some (.ok (0, menuHeader ++
        [Ev.print "Selection (e.g. 1,2): ",
         Ev.print "No actions selected. Press Enter to exit, or type \x27r\x27 to return to the menu: "])) :=
  ⟨rfl, rfl⟩

/-- Witness for C3 (amended): the flags `--all --dry-run --yes` with no
interactive input and an all-success oracle give one full-canonical pass,
exit code 0 (also with zero fuel for the interactive loop, which is never
entered); and `--dry-run` alone falls through to the interactive loop. -/
theorem main_flag_mode_witness :
    main 0 argsAll envOk [] = some (.ok (0,
      [Ev.prim "clean_temp_dir" true, Ev.print "Clean %TEMP% -> tmsg",
       Ev.prim "empty_recycle_bin" true, Ev.print "Empty Recycle Bin -> rmsg",
       Ev.prim "apply_tcp_optimizations" true, Ev.print "TCP optimizations ->",
       Ev.print "cmsg",
       Ev.print "No adapters found or failed to list adapters.",
       Ev.prim "show_wifi_passwords" true,
       Ev.print "Wi‑Fi profiles & passwords ->", Ev.print "wmsg",
       Ev.prim "create_god_mode" true, Ev.print "gmsg"])) ∧
    actionsFromArgs argsAll =
      ["temp", "recycle", "tcp", "restart", "wifi", "godmode"] ∧
    main 1 argsDryOnly envOk [""] = mainLoop true false envOk 1 [""] :=
  ⟨(main_flag_mode.1 0 argsAll envOk []
      [Ev.prim "clean_temp_dir" true, Ev.print "Clean %TEMP% -> tmsg",
       Ev.prim "empty_recycle_bin" true, Ev.print "Empty Recycle Bin -> rmsg",
       Ev.prim "apply_tcp_optimizations" true, Ev.print "TCP optimizations ->",
       Ev.print "cmsg",
       Ev.print "No adapters found or failed to list adapters.",
       Ev.prim "show_wifi_passwords" true,
       Ev.print "Wi‑Fi profiles & passwords ->", Ev.print "wmsg",
       Ev.prim "create_god_mode" true, Ev.print "gmsg"] [] rfl rfl).1,
   (main_flag_mode.1 0 argsAll envOk []
      [Ev.prim "clean_temp_dir" true, Ev.print "Clean %TEMP% -> tmsg",
       Ev.prim "empty_recycle_bin" true, Ev.print "Empty Recycle Bin -> rmsg",
       Ev.prim "apply_tcp_optimizations" true, Ev.print "TCP optimizations ->",
       Ev.print "cmsg",
       Ev.print "No adapters found or failed to list adapters.",
       Ev.prim "show_wifi_passwords" true,
       Ev.print "Wi‑Fi profiles & passwords ->", Ev.print "wmsg",
       Ev.prim "create_god_mode" true, Ev.print "gmsg"] [] rfl rfl).2 rfl,
   main_flag_mode.2 1 argsDryOnly envOk [""] rfl⟩

/-! ### Dry-run behaviour of the primitives -/

/-- A fold whose step only increments the middle counter leaves the other
components alone and adds the list's length. -/
theorem foldl_count_step {α : Type}
    (f : List SysEff × Nat × Nat → α → List SysEff × Nat × Nat)
    (hf : ∀ st x, f st x = (st.1, st.2.1 + 1, st.2.2)) (l : List α) :
    ∀ st, l.foldl f st = (st.1, st.2.1 + l.length, st.2.2) := by
  induction l with
  | nil => intro st; simp
  | cons x xs ih =>
    intro st
    rw [List.foldl_cons, hf, ih, List.length_cons,
      show st.2.1 + 1 + xs.length = st.2.1 + (xs.length + 1) from by omega]

/-- Under dry-run, one walk entry contributes no effect and no failure,
only the file and directory counts. -/
theorem cleanWalkStep_dry (fs : TempFS) (entry : String × List String × List String) :
    ∀ st, cleanWalkStep true fs st entry =
      (st.1, st.2.1 + entry.2.2.length + entry.2.1.length, st.2.2) := by
  intro st
  unfold cleanWalkStep
  dsimp only
  simp only [↓reduceIte]
  rw [foldl_count_step _ (fun _ _ => rfl), foldl_count_step _ (fun _ _ => rfl)]

/-- Shifting the accumulator out of the entry-count fold. -/
theorem count_foldl_shift :
    ∀ (l : List (String × List String × List String)) (a : Nat),
      l.foldl (fun n e => n + e.2.2.length + e.2.1.length) a =
        a + l.foldl (fun n e => n + e.2.2.length + e.2.1.length) 0 := by
  intro l
  induction l with
  | nil => intro a; simp
  | cons x xs ih =>
    intro a
    simp only [List.foldl_cons]
    rw [ih (a + x.2.2.length + x.2.1.length), ih (0 + x.2.2.length + x.2.1.length)]
    omega

/-- Under dry-run the whole walk fold performs no effect and no failure,
and counts every file and directory entry. -/
theorem walk_foldl_dry (fs : TempFS) :
    ∀ (l : List (String × List String × List String)) (st : List SysEff × Nat × Nat),
      l.foldl (cleanWalkStep true fs) st =
        (st.1, st.2.1 + l.foldl (fun n e => n + e.2.2.length + e.2.1.length) 0, st.2.2) := by
  intro l
  induction l with
  | nil => intro st; simp
  | cons x xs ih =>
    intro st
    rw [List.foldl_cons, ih, cleanWalkStep_dry]
    simp only [List.foldl_cons, Prod.mk.injEq, true_and, and_true]
    rw [count_foldl_shift xs (0 + x.2.2.length + x.2.1.length)]
    omega

/-- C4 counterexample: `clean_temp_dir`'s dry-run message is not marked
as simulated.  On a one-file temp directory whose deletion succeeds, the
dry-run message is byte-for-byte the message of the real (deleting) run,
and it does not carry the `Dry-run` prefix every other primitive uses —
no marking distinguishes the simulated report. -/
theorem clean_temp_dry_message_unmarked :
    (clean_temp_dir true fsOneFile).2.2 = (clean_temp_dir false fsOneFile).2.2 ∧
    (clean_temp_dir true fsOneFile).2.2 =
      "Planned deletions: 1. Failed deletions: 0." ∧
    ¬ ∃ r, (clean_temp_dir true fsOneFile).2.2 = "Dry-run" ++ r := by
  refine ⟨by decide, by decide, ?_⟩
  rintro ⟨r, h⟩
  rw [show (clean_temp_dir true fsOneFile).2.2 =
    "Planned deletions: 1. Failed deletions: 0." from by decide] at h
  have hd := congrArg String.data h
  rw [String.data_append] at hd
  have h7 : ("Dry-run" : String).data.length = 7 := by decide
  have htake : ("Planned deletions: 1. Failed deletions: 0." : String).data.take 7 =
      ("Dry-run" : String).data := by
    rw [hd, ← h7, List.take_left]
  exact absurd htake (by decide)

/-- C4 as amended: under dry-run no primitive performs any mutating
system effect; the five primitives other than clean-temp return a message
prefixed `Dry-run`; clean-temp instead returns its ordinary
`Planned deletions: N. Failed deletions: 0.` report, where `N` counts the
entries that would have been deleted and nothing was actually removed —
a simulated count, but not a marked message (see the counterexample). -/
theorem dry_run_spec (fs : TempFS) (api : ShellApi) (net : NetshApi)
    (wapi : WifiApi) (dfs : DesktopFS) (name : String) :
    ((clean_temp_dir true fs).1 = [] ∧
     (empty_recycle_bin true api).1 = [] ∧
     (restart_adapter name true net).1 = [] ∧
     (apply_tcp_optimizations true net).1 = [] ∧
     (show_wifi_passwords true wapi).1 = [] ∧
     (create_god_mode true dfs).1 = []) ∧
    ((∃ r, (empty_recycle_bin true api).2.2 = "Dry-run" ++ r) ∧
     (∃ r, (restart_adapter name true net).2.2 = "Dry-run" ++ r) ∧
     (∃ r, (apply_tcp_optimizations true net).2.2 = "Dry-run" ++ r) ∧
     (∃ r, (show_wifi_passwords true wapi).2.2 = "Dry-run" ++ r) ∧
     (∃ r, (create_god_mode true dfs).2.2 = "Dry-run" ++ r)) ∧
    (fs.tempExists = true →
      (clean_temp_dir true fs).2 =
        (true, "Planned deletions: " ++ toString (walkCount fs) ++
          ". Failed deletions: 0.")) := by
  refine ⟨⟨?_, rfl, rfl, rfl, rfl, rfl⟩, ⟨?_, ?_, ?_, ?_, ?_⟩, ?_⟩
  · unfold clean_temp_dir
    cases h : fs.tempExists with
    | false => simp [h]
    | true => simp [h, walk_foldl_dry]
  · exact ⟨": would call SHEmptyRecycleBinW for all drives.", rfl⟩
  · exact ⟨": would restart adapter \x27" ++ (name ++ "\x27."), rfl⟩
  · exact ⟨": would run netsh commands:\n" ++
      String.intercalate "\n" (tcpCommands.map (String.intercalate " ")), rfl⟩
  · exact ⟨": would list saved Wi-Fi profiles and their passwords.", rfl⟩
  · exact ⟨": would create \x27" ++
      ((dfs.home ++ "\\Desktop" ++ "\\GodMode.\x7bED7BA470-8E54-465E-825C-99712043E01C\x7d") ++
      "\x27"), rfl⟩
  · intro h
    unfold clean_temp_dir
    rw [if_neg (by simp [h])]
    unfold walkCount
    simp only [walk_foldl_dry, Nat.zero_add, String.append_assoc]
    rfl

/-- Witness for the amended C4 at concrete oracles: the dry run on the
one-file temp directory deletes nothing and reports the simulated count
of one planned deletion and zero failures. -/
theorem dry_run_spec_witness :
    (clean_temp_dir true fsOneFile).1 = [] ∧
    (empty_recycle_bin true ⟨none, 0⟩).1 = [] ∧
    (clean_temp_dir true fsOneFile).2 =
      (true, "Planned deletions: " ++ toString (walkCount fsOneFile) ++
        ". Failed deletions: 0.") :=
  ⟨(dry_run_spec fsOneFile ⟨none, 0⟩ ⟨fun _ => none⟩ ⟨[], fun _ => (false, "")⟩
      ⟨"C:\\Users\\u", true, true, none⟩ "Ethernet").1.1,
   (dry_run_spec fsOneFile ⟨none, 0⟩ ⟨fun _ => none⟩ ⟨[], fun _ => (false, "")⟩
      ⟨"C:\\Users\\u", true, true, none⟩ "Ethernet").1.2.1,
   (dry_run_spec fsOneFile ⟨none, 0⟩ ⟨fun _ => none⟩ ⟨[], fun _ => (false, "")⟩
      ⟨"C:\\Users\\u", true, true, none⟩ "Ethernet").2.2 rfl⟩

end WinOpt
